import Mathlib

/-!
Verification development for the MT3900 USB camera service.

Shallow embedding of:
  * `src/src/drivers/usb_camera.py` — `USBCameraDriver` (probing, open,
    paced read, close) and the module-level `_probe_device_index`;
  * `src/src/models/measurement.py` — `Measurement`;
  * `src/scripts/run_usb_camera_api.py` — `FrameGrabber` and the HTTP
    handlers `camera_enable`, `camera_frame`, `camera_stream`.

Conventions: byte strings are `List Nat` (each entry one byte value);
wall-clock instants and durations are `ℚ` (an idealised monotone clock,
`time.perf_counter`); OpenCV device behaviour is an oracle pair
`opensF readsF : Int → Bool` saying whether `cv2.VideoCapture(i)` opens
and whether its `read()` succeeds; Python exceptions are the error side
of `Except`, carrying the object state at the moment of the raise
(attribute mutations made before the raise persist).
-/

namespace MT3900

/-- One captured unit, from `src/src/models/measurement.py` (`@dataclass
Measurement`): timestamp string, payload bytes, string-to-string
metadata, optional semantic id. -/
structure Measurement where
  timestamp : String
  data : List Nat
  meta : List (String × String)
  semantic_id : Option String
deriving Repr, DecidableEq

/-- Error taxonomy of the driver, from the `RuntimeError`s raised in
`src/src/drivers/usb_camera.py`:
`deviceUnavailable` — probe found no usable index (`open`, device_index
absent); `cannotOpen` — `cv2.VideoCapture` did not open the explicit
index (`open`); `notReady` — the device opened but the verification
read failed (`open`); `notOpen` — `read` called while `self._cap is
None`. -/
inductive DriverErr where
  | deviceUnavailable
  | cannotOpen
  | notReady
  | notOpen
deriving Repr, DecidableEq

/-- State of a `USBCameraDriver` instance: the constructor arguments
kept as attributes plus `_cap` (the acquired capture handle, identified
by its device index when open), `_last_frame_ts` and `_frame_interval`
(from `USBCameraDriver.__init__`). -/
structure DriverState where
  device_index : Option Int
  width : Int
  height : Int
  fps : Int
  jpeg_quality : Int
  cap : Option Int
  last_frame_ts : ℚ
  frame_interval : ℚ
deriving Repr, DecidableEq

/-- `USBCameraDriver.__init__`: stores the configuration, leaves the
capture handle unset and computes `_frame_interval = 1.0 / max(1, fps)`
with `_last_frame_ts = 0.0`. -/
def mkUSBCameraDriver (device_index : Option Int) (width height fps jpeg_quality : Int) :
    DriverState :=
  { device_index := device_index
    width := width
    height := height
    fps := fps
    jpeg_quality := jpeg_quality
    cap := none
    last_frame_ts := 0
    frame_interval := 1 / ((max 1 fps : Int) : ℚ) }

/-- The `for i in range(max_index)` loop body of `_probe_device_index`:
try index `i`, and if `cv2.VideoCapture(i)` opens and a test read
succeeds return `i`, otherwise move to `i+1` while fuel remains. -/
def probe_loop (opensF readsF : Int → Bool) : Nat → Nat → Option Int
  | _, 0 => none
  | i, fuel + 1 =>
      if opensF i then
        if readsF i then some (i : Int) else probe_loop opensF readsF (i + 1) fuel
      else probe_loop opensF readsF (i + 1) fuel

/-- `_probe_device_index(max_index)` from `src/src/drivers/usb_camera.py`:
scan indices `0 .. max_index - 1` in ascending order, returning the
first that both opens and yields a successful read; every probe capture
is released before returning. -/
def _probe_device_index (opensF readsF : Int → Bool) (max_index : Nat) : Option Int :=
  probe_loop opensF readsF 0 max_index

/-- `USBCameraDriver.open`: when `device_index` is absent, probe
(default `max_index = 10`) and fail `deviceUnavailable` if nothing is
found, otherwise record the found index; then open a capture on the
index (failing `cannotOpen` if it does not open), apply the requested
configuration best-effort, do one verification read (releasing and
failing `notReady` if it fails), and finally store the handle and reset
`_last_frame_ts` to `0.0`. An error carries the driver state at the
raise. -/
def USBopen (opensF readsF : Int → Bool) (d : DriverState) :
    Except (DriverErr × DriverState) DriverState :=
  match d.device_index with
  | none =>
      match _probe_device_index opensF readsF 10 with
      | none => .error (.deviceUnavailable, d)
      | some idx =>
          let d1 := { d with device_index := some idx }
          if opensF idx then
            if readsF idx then
              .ok { d1 with cap := some idx, last_frame_ts := 0 }
            else .error (.notReady, d1)
          else .error (.cannotOpen, d1)
  | some idx =>
      if opensF idx then
        if readsF idx then
          .ok { d with cap := some idx, last_frame_ts := 0 }
        else .error (.notReady, d)
      else .error (.cannotOpen, d)

/-- `USBCameraDriver.close`: release the capture handle if present and
clear `_cap`; idempotent, never fails. -/
def USBclose (d : DriverState) : DriverState :=
  { d with cap := none }

/-- `USBCameraDriver.read`, with the ambient world made explicit:
`now` is `time.perf_counter()` at entry; `ts` is the
`Measurement.now_iso()` timestamp string; `grab` is the result of
`_grab_encoded()` (`none` on capture or JPEG-encode failure, otherwise
payload bytes with metadata). Raises `notOpen` when `_cap is None`.
Otherwise computes `dt = now - _last_frame_ts`, sleeps
`_frame_interval - dt` when `dt < _frame_interval` (else not at all),
stamps `_last_frame_ts` with the post-sleep clock `now + sleep`, and
performs exactly one underlying capture. Returns the sleep duration,
the updated driver, and the optional `Measurement`. -/
def USBread (d : DriverState) (now : ℚ) (ts : String)
    (grab : Option (List Nat × List (String × String))) :
    Except (DriverErr × DriverState) (ℚ × DriverState × Option Measurement) :=
  match d.cap with
  | none => .error (.notOpen, d)
  | some _ =>
      let dt := now - d.last_frame_ts
      let sleepT := if dt < d.frame_interval then d.frame_interval - dt else 0
      let d2 := { d with last_frame_ts := now + sleepT }
      match grab with
      | none => .ok (sleepT, d2, none)
      | some (data, meta) =>
          .ok (sleepT, d2, some { timestamp := ts, data := data, meta := meta,
                                  semantic_id := none })

/-! ## FrameGrabber (`src/scripts/run_usb_camera_api.py`)

The grabber owns a driver, a background thread running `_loop`, a stop
event, and a guarded latest-frame slot. We model its shared mutable
state directly. Whether `_open_driver()` succeeds on a given call is an
oracle boolean `ok` threaded into each operation that may start the
loop; a successful start is modelled together with the loop's entry
(the thread is alive and `running` has been set by `_loop`). -/

/-- The mutable attributes of a `FrameGrabber` instance:
`enabled` (the public switch), `running` (set true at `_loop` entry,
false at its exit), `stop_evt` (the `threading.Event`), `thread`
(a live background thread exists), `driverOpen` (the currently held
driver has an acquired capture), and the published
`latest_frame` / `latest_meta` slot. -/
structure GrabberState where
  enabled : Bool
  running : Bool
  stop_evt : Bool
  thread : Bool
  driverOpen : Bool
  latest_frame : Option (List Nat)
  latest_meta : List (String × String)
deriving Repr, DecidableEq

/-- The fresh `FrameGrabber.__init__` state before the boot-time start
attempt: `enabled` comes from the environment (`DEFAULT_ENABLED`),
everything else is off/empty. -/
def initGrabber (default_enabled : Bool) : GrabberState :=
  { enabled := default_enabled
    running := false
    stop_evt := false
    thread := false
    driverOpen := false
    latest_frame := none
    latest_meta := [] }

/-- `FrameGrabber.start`, with `ok` saying whether `_open_driver()`
succeeds. A no-op when a live thread exists. Otherwise clears the stop
event, opens the driver (on failure the new driver instance is kept but
unopened and the exception propagates: first component `true`), then
launches the thread whose `_loop` sets `running`. -/
def startG (ok : Bool) (s : GrabberState) : Bool × GrabberState :=
  if s.thread then (false, s)
  else if ok then
    (false, { s with stop_evt := false, driverOpen := true, thread := true, running := true })
  else
    (true, { s with stop_evt := false, driverOpen := false })

/-- `FrameGrabber.stop`: set the stop event, join the thread (the loop
exits and clears `running`), drop the thread, close the driver, and
clear `latest_frame` / `latest_meta` under the lock. Never raises. -/
def stopG (s : GrabberState) : GrabberState :=
  { s with stop_evt := true, thread := false, running := false, driverOpen := false,
           latest_frame := none, latest_meta := [] }

/-- `FrameGrabber.set_enabled(flag)`: no-op when `flag == enabled`;
otherwise sets `enabled := flag` first and then calls `start()` (which
may raise, first component `true`) or `stop()`. -/
def set_enabled (ok flag : Bool) (s : GrabberState) : Bool × GrabberState :=
  if flag = s.enabled then (false, s)
  else
    let s1 := { s with enabled := flag }
    if flag then startG ok s1 else (false, stopG s1)

/-- `FrameGrabber.get_latest_jpeg`: the published payload, read under
the lock. -/
def get_latest_jpeg (s : GrabberState) : Option (List Nat) :=
  s.latest_frame

/-- The events that touch the grabber state after boot: an enable/
disable request (`camera_enable` → `set_enabled`), a forced reopen
(`camera_reopen` → `stop` then `start`, a no-op answer 409 when
disabled), one iteration of `_loop` publishing a measurement (only a
live loop publishes), and the loop dying on an unexpected driver
exception (`running` cleared by the `finally`, the thread no longer
alive). -/
inductive GEvent where
  | apiEnable (flag ok : Bool)
  | apiReopen (ok : Bool)
  | publish (data : List Nat) (meta : List (String × String))
  | loopFail
deriving Repr, DecidableEq

/-- Transition function of the grabber: the effect of one event on the
shared state (for requests that raise, the state at the raise). -/
def stepG (s : GrabberState) (e : GEvent) : GrabberState :=
  match e with
  | .apiEnable flag ok => (set_enabled ok flag s).2
  | .apiReopen ok => if s.enabled then (startG ok (stopG s)).2 else s
  | .publish data meta =>
      if s.running then { s with latest_frame := some data, latest_meta := meta } else s
  | .loopFail => if s.running then { s with running := false, thread := false } else s

/-- Boot state of the module: `grabber = FrameGrabber()` followed by
the guarded `grabber.start()` when `enabled`, whose failure is caught
and only logged. -/
def bootGrabber (default_enabled ok : Bool) : GrabberState :=
  if default_enabled then (startG ok (initGrabber default_enabled)).2
  else initGrabber default_enabled

/-- A state of the running service: the boot state followed by any
sequence of events. -/
def reachG (default_enabled ok : Bool) (es : List GEvent) : GrabberState :=
  es.foldl stepG (bootGrabber default_enabled ok)

/-! ## HTTP handlers (`src/scripts/run_usb_camera_api.py`) -/

/-- Outcome of a request handler: an `HTTPException` with a status
code, a raw-bytes response with a media type, or the JSON body
`{"enabled": b}`. -/
inductive ApiResult where
  | httpError (status_code : Nat)
  | bytesResp (content : List Nat) (media_type : String)
  | jsonEnabled (enabled : Bool)
deriving Repr, DecidableEq

/-- `camera_enable` (PUT `/camera/enable`): `payload.get("enabled")` is
the optional field of the request body; `None` → 400; otherwise
delegate to `set_enabled` and report the grabber's `enabled`, turning
any exception into a 500. Returns the response with the grabber state
after the call. -/
def camera_enable (body : Option Bool) (ok : Bool) (s : GrabberState) :
    ApiResult × GrabberState :=
  match body with
  | none => (.httpError 400, s)
  | some flag =>
      let r := set_enabled ok flag s
      if r.1 then (.httpError 500, r.2) else (.jsonEnabled r.2.enabled, r.2)

/-- Python truthiness of `grabber.get_latest_jpeg()`: falsy when it is
`None` or the empty byte string. -/
def pyFalsyBytes : Option (List Nat) → Bool
  | none => true
  | some b => b.isEmpty

/-- `camera_frame` (GET `/camera/frame`): 409 when disabled, 404 when
`not data` (no payload published, or a falsy empty one), otherwise the
payload bytes with media type `image/jpeg`. -/
def camera_frame (s : GrabberState) : ApiResult :=
  if !s.enabled then .httpError 409
  else
    let data := get_latest_jpeg s
    if pyFalsyBytes data then .httpError 404
    else .bytesResp (data.getD []) "image/jpeg"

/-- UTF-8 encoding of one character (byte values as `Nat`). -/
def utf8Bytes (c : Char) : List Nat :=
  let n := c.toNat
  if n < 0x80 then [n]
  else if n < 0x800 then
    [0xC0 ||| (n >>> 6), 0x80 ||| (n &&& 0x3F)]
  else if n < 0x10000 then
    [0xE0 ||| (n >>> 12), 0x80 ||| ((n >>> 6) &&& 0x3F), 0x80 ||| (n &&& 0x3F)]
  else
    [0xF0 ||| (n >>> 18), 0x80 ||| ((n >>> 12) &&& 0x3F),
     0x80 ||| ((n >>> 6) &&& 0x3F), 0x80 ||| (n &&& 0x3F)]

/-- Python's `str.encode("utf-8")` on our byte-list representation. -/
def encodeUtf8 (s : String) : List Nat :=
  (s.data.map utf8Bytes).flatten

/-- The multipart boundary used by `camera_stream`
(`boundary = "frame"`). -/
def stream_boundary : String := "frame"

/-- One chunk yielded by the generator `gen()` inside `camera_stream`
for a truthy `frame`: the three adjacent string literals
`f"--{boundary}\r\n"`, `"Content-Type: image/jpeg\r\n"` and
`f"Content-Length: {len(frame)}\r\n\r\n"` encoded as UTF-8, then the
frame bytes, then `b"\r\n"`. -/
def stream_chunk (frame : List Nat) : List Nat :=
  encodeUtf8 (("--" ++ stream_boundary ++ "\r\n") ++
      "Content-Type: image/jpeg\r\n" ++
      ("Content-Length: " ++ toString frame.length ++ "\r\n\r\n")) ++
    frame ++ encodeUtf8 "\r\n"

/-- Modelled from the spec: the multipart frame encoding template
`--<boundary>\r\nContent-Type: <type>\r\nContent-Length: <n>\r\n\r\n<bytes>\r\n`
with `<n>` the byte count of `<bytes>`, transcribed literally for
comparison with `stream_chunk`. -/
def spec_chunk (boundary ctype : String) (payload : List Nat) : List Nat :=
  encodeUtf8 ("--" ++ boundary ++ "\r\nContent-Type: " ++ ctype ++
      "\r\nContent-Length: " ++ toString payload.length ++ "\r\n\r\n") ++
    payload ++ encodeUtf8 "\r\n"

/-! ## Driver lemmas and claim theorems -/

lemma probe_loop_eq_none (opensF readsF : Int → Bool) :
    ∀ (fuel i : Nat), (∀ j : Nat, i ≤ j → j < i + fuel → (opensF j && readsF j) = false) →
      probe_loop opensF readsF i fuel = none := by
  intro fuel
  induction fuel with
  | zero => intro i _; rfl
  | succ n ih =>
      intro i h
      have hi : (opensF i && readsF i) = false := h i le_rfl (by omega)
      have hrec : probe_loop opensF readsF (i + 1) n = none := by
        refine ih (i + 1) fun j h1 h2 => h j (by omega) (by omega)
      cases ho : opensF (i : Int) with
      | false => simpa [probe_loop, ho] using hrec
      | true =>
          have hr : readsF (i : Int) = false := by
            cases hrd : readsF (i : Int) with
            | false => rfl
            | true => simp [ho, hrd] at hi
          simpa [probe_loop, ho, hr] using hrec

lemma probe_loop_eq_some (opensF readsF : Int → Bool) :
    ∀ (fuel i k : Nat), i ≤ k → k < i + fuel →
      opensF k = true → readsF k = true →
      (∀ j : Nat, i ≤ j → j < k → (opensF j && readsF j) = false) →
      probe_loop opensF readsF i fuel = some (k : Int) := by
  intro fuel
  induction fuel with
  | zero => intro i k h1 h2; omega
  | succ n ih =>
      intro i k hik hlt hok hrk hfirst
      rcases Nat.eq_or_lt_of_le hik with heq | hlt2
      · subst heq
        simp [probe_loop, hok, hrk]
      · have hi : (opensF i && readsF i) = false := hfirst i le_rfl hlt2
        have hrec : probe_loop opensF readsF (i + 1) n = some (k : Int) := by
          refine ih (i + 1) k (by omega) (by omega) hok hrk ?_
          intro j h1 h2
          exact hfirst j (by omega) h2
        cases ho : opensF (i : Int) with
        | false => simpa [probe_loop, ho] using hrec
        | true =>
            have hr : readsF (i : Int) = false := by
              cases hrd : readsF (i : Int) with
              | false => rfl
              | true => simp [ho, hrd] at hi
            simpa [probe_loop, ho, hr] using hrec

/-- C9: `USBCameraDriver.__init__` is total for every integer `fps`:
`_frame_interval` is `1.0 / max(1, fps)`, whose divisor `max(1, fps)`
is strictly positive (never zero), and any `fps ≤ 0` yields a
one-second minimum interval. -/
theorem usb_init_total_for_all_fps (device_index : Option Int) (w h fps q : Int) :
    (mkUSBCameraDriver device_index w h fps q).frame_interval
        = 1 / ((max 1 fps : Int) : ℚ) ∧
    0 < (max 1 fps : Int) ∧
    (fps ≤ 0 → (mkUSBCameraDriver device_index w h fps q).frame_interval = 1) := by
  refine ⟨rfl, lt_of_lt_of_le one_pos (le_max_left 1 fps), ?_⟩
  intro hfps
  have hmax : max 1 fps = 1 := max_eq_left (by omega)
  simp [mkUSBCameraDriver, hmax]

/-- Witness for C9 at `fps = -3`: the interval is one second. -/
theorem usb_init_total_for_all_fps_witness :
    (mkUSBCameraDriver none 640 480 (-3) 85).frame_interval = 1 :=
  (usb_init_total_for_all_fps none 640 480 (-3) 85).2.2 (by norm_num)

/-- C7: `read()` fails with the `NotOpen` sequencing error exactly when
`_cap is None`, which holds both in a freshly constructed driver
(before `open()` succeeds) and after `close()`; a successful `read()`
is only possible with an acquired capture (the `Opened` state). -/
theorem usb_read_requires_open (d : DriverState) (now : ℚ) (ts : String)
    (grab : Option (List Nat × List (String × String))) :
    (d.cap = none → USBread d now ts grab = .error (.notOpen, d)) ∧
    (∀ res, USBread d now ts grab = .ok res → d.cap ≠ none) ∧
    (∀ (di : Option Int) (w h fps q : Int), (mkUSBCameraDriver di w h fps q).cap = none) ∧
    ((USBclose d).cap = none) := by
    refine ⟨?_, ?_, fun _ _ _ _ _ => rfl, rfl⟩
    · intro hc
      simp [USBread, hc]
    · intro res hok hc
      simp [USBread, hc] at hok

/-- Witness for C7: a freshly constructed driver rejects `read()` with
`NotOpen`, and so does a closed one. -/
theorem usb_read_requires_open_witness :
    USBread (mkUSBCameraDriver (some 1) 640 480 10 85) 5 "t" none
        = .error (.notOpen, mkUSBCameraDriver (some 1) 640 480 10 85) ∧
    USBread (USBclose (mkUSBCameraDriver (some 1) 640 480 10 85)) 5 "t" none
        = .error (.notOpen, USBclose (mkUSBCameraDriver (some 1) 640 480 10 85)) :=
  ⟨(usb_read_requires_open (mkUSBCameraDriver (some 1) 640 480 10 85) 5 "t" none).1 rfl,
   (usb_read_requires_open (USBclose (mkUSBCameraDriver (some 1) 640 480 10 85)) 5 "t" none).1
     rfl⟩

/-- C5: pacing of `USBCameraDriver.read()`. With the capture open and
`_frame_interval = 1 / fps` (the constructor's value for `fps ≥ 1`),
a `read()` entered at clock `t1` succeeds, sleeps exactly
`_frame_interval - dt` when the elapsed `dt` since the previous stamp
is below the interval (and not at all otherwise), and stamps
`_last_frame_ts` with its capture instant; any next `read()` entered at
`t2` no earlier than that stamp again sleeps exactly the remaining time
and captures at least `1 / fps` after the previous capture, regardless
of how early the caller comes back. -/
theorem usb_read_pacing (fps : Int) (d : DriverState) (c : Int) (t1 t2 : ℚ)
    (ts1 ts2 : String) (g1 g2 : Option (List Nat × List (String × String)))
    (hcap : d.cap = some c) (hfps : 1 ≤ fps)
    (hint : d.frame_interval = 1 / (fps : ℚ)) :
    ∃ s1 d1 r1, USBread d t1 ts1 g1 = .ok (s1, d1, r1) ∧
      s1 = (if t1 - d.last_frame_ts < 1 / (fps : ℚ)
            then 1 / (fps : ℚ) - (t1 - d.last_frame_ts) else 0) ∧
      d1.last_frame_ts = t1 + s1 ∧
      ∀ ht2 : d1.last_frame_ts ≤ t2,
        ∃ s2 d2 r2, USBread d1 t2 ts2 g2 = .ok (s2, d2, r2) ∧
          s2 = (if t2 - d1.last_frame_ts < 1 / (fps : ℚ)
                then 1 / (fps : ℚ) - (t2 - d1.last_frame_ts) else 0) ∧
          1 / (fps : ℚ) ≤ d2.last_frame_ts - d1.last_frame_ts := by
  have hread : ∀ (t : ℚ) (ts : String) (g : Option (List Nat × List (String × String)))
      (d' : DriverState), d'.cap = some c → d'.frame_interval = 1 / (fps : ℚ) →
      ∃ s dn r, USBread d' t ts g = .ok (s, dn, r) ∧
        s = (if t - d'.last_frame_ts < 1 / (fps : ℚ)
             then 1 / (fps : ℚ) - (t - d'.last_frame_ts) else 0) ∧
        dn.last_frame_ts = t + s ∧ dn.frame_interval = 1 / (fps : ℚ) ∧
        dn.cap = some c := by
    intro t ts g d' hc hi
    refine ⟨if t - d'.last_frame_ts < d'.frame_interval
              then d'.frame_interval - (t - d'.last_frame_ts) else 0,
            { d' with last_frame_ts := t +
                (if t - d'.last_frame_ts < d'.frame_interval
                 then d'.frame_interval - (t - d'.last_frame_ts) else 0) },
            g.map fun gm =>
              { timestamp := ts, data := gm.1, meta := gm.2, semantic_id := none },
            ?_, ?_, rfl, hi, hc⟩
    · cases g with
      | none => simp [USBread, hc]
      | some gm => cases gm with
        | mk a b => simp [USBread, hc]
    · simp [hi]
  obtain ⟨s1, d1, r1, hok1, hs1, hts1, hi1, hc1⟩ := hread t1 ts1 g1 d hcap hint
  refine ⟨s1, d1, r1, hok1, hs1, hts1, ?_⟩
  intro ht2
  obtain ⟨s2, d2, r2, hok2, hs2, hts2, _, _⟩ := hread t2 ts2 g2 d1 hc1 hi1
  refine ⟨s2, d2, r2, hok2, hs2, ?_⟩
  rw [hts2, hs2]
  split_ifs with hlt
  · linarith
  · linarith

/-- A concrete opened 10 fps driver used to instantiate the pacing
theorem. -/
def pacedDriver : DriverState :=
  { device_index := some 1
    width := 640
    height := 480
    fps := 10
    jpeg_quality := 85
    cap := some 1
    last_frame_ts := 100
    frame_interval := 1 / 10 }

/-- Witness for C5: the 10 fps driver read at t=100 and then again
accepts both calls and spaces the capture stamps at least 1/10 s
apart. -/
theorem usb_read_pacing_witness :
    ∃ s1 d1 r1,
      USBread pacedDriver 100 "t1" none = .ok (s1, d1, r1) ∧
      s1 = (if (100 : ℚ) - pacedDriver.last_frame_ts < 1 / ((10 : Int) : ℚ)
            then 1 / ((10 : Int) : ℚ) - ((100 : ℚ) - pacedDriver.last_frame_ts) else 0) ∧
      d1.last_frame_ts = 100 + s1 ∧
      ∀ ht2 : d1.last_frame_ts ≤ (101 : ℚ),
        ∃ s2 d2 r2, USBread d1 101 "t2" none = .ok (s2, d2, r2) ∧
          s2 = (if (101 : ℚ) - d1.last_frame_ts < 1 / ((10 : Int) : ℚ)
                then 1 / ((10 : Int) : ℚ) - ((101 : ℚ) - d1.last_frame_ts) else 0) ∧
          1 / ((10 : Int) : ℚ) ≤ d2.last_frame_ts - d1.last_frame_ts :=
  usb_read_pacing 10 pacedDriver 1 100 101 "t1" "t2" none none rfl (by norm_num)
    (by norm_num [pacedDriver])

/-- C6: `open()` without an explicit device index probes indices
`0..9` in ascending order. If no index both opens and passes the
verification read, `open()` raises `DeviceUnavailable` with the driver
completely unchanged (in particular `_cap` is still unset: no device
acquired). If `k < 10` is the first index that opens and reads
successfully, `open()` selects it: it succeeds with
`device_index = k`, the capture acquired on `k`, and the pacing stamp
reset. -/
theorem usb_open_probes_ascending (opensF readsF : Int → Bool) (d : DriverState)
    (hidx : d.device_index = none) :
    ((∀ j : Nat, j < 10 → (opensF j && readsF j) = false) →
      USBopen opensF readsF d = .error (.deviceUnavailable, d)) ∧
    (∀ k : Nat, k < 10 → opensF k = true → readsF k = true →
      (∀ j : Nat, j < k → (opensF j && readsF j) = false) →
      USBopen opensF readsF d =
        .ok { d with device_index := some (k : Int), cap := some (k : Int),
                     last_frame_ts := 0 }) := by
  constructor
  · intro h
    have hp : _probe_device_index opensF readsF 10 = none := by
      refine probe_loop_eq_none opensF readsF 10 0 fun j h1 h2 => h j (by omega)
    simp [USBopen, hidx, hp]
  · intro k hk hok hrk hfirst
    have hp : _probe_device_index opensF readsF 10 = some (k : Int) := by
      refine probe_loop_eq_some opensF readsF 10 0 k (Nat.zero_le k) (by omega) hok hrk
        fun j h1 h2 => hfirst j h2
    simp [USBopen, hidx, hp, hok, hrk]

/-- Witness for C6: with devices where index 2 opens but cannot read
and index 5 both opens and reads, probing selects 5; with no usable
device at all, `open()` fails `DeviceUnavailable` leaving the fresh
driver untouched. -/
theorem usb_open_probes_ascending_witness :
    USBopen (fun i => decide (i = 2 ∨ i = 5)) (fun i => decide (i = 5))
        (mkUSBCameraDriver none 640 480 10 85) =
      .ok { mkUSBCameraDriver none 640 480 10 85 with
              device_index := some 5, cap := some 5, last_frame_ts := 0 } ∧
    USBopen (fun _ => false) (fun _ => true) (mkUSBCameraDriver none 640 480 10 85) =
      .error (.deviceUnavailable, mkUSBCameraDriver none 640 480 10 85) :=
  ⟨(usb_open_probes_ascending (fun i => decide (i = 2 ∨ i = 5)) (fun i => decide (i = 5))
      (mkUSBCameraDriver none 640 480 10 85) rfl).2 5 (by norm_num) (by decide) (by decide)
      (by decide),
   (usb_open_probes_ascending (fun _ => false) (fun _ => true)
      (mkUSBCameraDriver none 640 480 10 85) rfl).1 (by decide)⟩

/-! ## Grabber lemmas and claim theorems -/

/-- The disabled-grabber invariant: when the switch is off, the loop is
not running and the published slot is empty. -/
def DisabledInv (s : GrabberState) : Prop :=
  s.enabled = false →
    s.running = false ∧ s.latest_frame = none ∧ s.latest_meta = []

lemma stepG_disabledInv (s : GrabberState) (e : GEvent) (h : DisabledInv s) :
    DisabledInv (stepG s e) := by
  cases e with
  | apiEnable flag ok =>
      by_cases hfe : flag = s.enabled
      · simpa [stepG, set_enabled, hfe] using h
      · cases flag with
        | false =>
            intro _
            simp [stepG, set_enabled, hfe, stopG]
        | true =>
            intro hne
            by_cases hth : s.thread <;> by_cases hok : ok <;>
              simp [stepG, set_enabled, hfe, startG, hth, hok] at hne
  | apiReopen ok =>
      by_cases hen : s.enabled
      · intro hne
        by_cases hok : ok <;>
          simp [stepG, hen, startG, stopG, hok] at hne
      · simpa [stepG, hen] using h
  | publish data meta =>
      by_cases hrun : s.running
      · intro hne
        rcases h (by simpa [stepG, hrun] using hne) with ⟨h1, _, _⟩
        rw [hrun] at h1
        cases h1
      · simpa [stepG, hrun] using h
  | loopFail =>
      by_cases hrun : s.running
      · intro hne
        rcases h (by simpa [stepG, hrun] using hne) with ⟨_, h2, h3⟩
        exact ⟨by simp [stepG, hrun], by simpa [stepG, hrun] using h2,
               by simpa [stepG, hrun] using h3⟩
      · simpa [stepG, hrun] using h

lemma foldl_stepG_disabledInv (es : List GEvent) :
    ∀ s : GrabberState, DisabledInv s → DisabledInv (es.foldl stepG s) := by
  induction es with
  | nil => intro s h; exact h
  | cons e es ih =>
      intro s h
      exact ih (stepG s e) (stepG_disabledInv s e h)

lemma bootGrabber_disabledInv (de ok : Bool) : DisabledInv (bootGrabber de ok) := by
  cases de with
  | false => intro _; exact ⟨rfl, rfl, rfl⟩
  | true =>
      intro hne
      by_cases hok : ok <;>
        simp [bootGrabber, startG, initGrabber, hok] at hne

/-- C1: in every reachable service state, `enabled = false` implies the
loop is not running and the published payload and metadata are empty;
moreover a `publish` is a no-op whenever the loop is not running (so
nothing is published while disabled), and on an enabled grabber
`set_enabled(false)` is exactly `stop()` applied after the flag flip,
which ends the loop and clears `latest_frame`/`latest_meta`. -/
theorem grabber_disabled_clears (de ok : Bool) (es : List GEvent) :
    ((reachG de ok es).enabled = false →
      (reachG de ok es).running = false ∧
      (reachG de ok es).latest_frame = none ∧
      (reachG de ok es).latest_meta = []) ∧
    (∀ (s : GrabberState) (data : List Nat) (meta : List (String × String)),
      s.running = false → stepG s (.publish data meta) = s) ∧
    (∀ (s : GrabberState) (ok2 : Bool), s.enabled = true →
      (set_enabled ok2 false s).2 = stopG { s with enabled := false }) := by
  refine ⟨foldl_stepG_disabledInv es (bootGrabber de ok) (bootGrabber_disabledInv de ok),
          ?_, ?_⟩
  · intro s data meta hrun
    simp [stepG, hrun]
  · intro s ok2 hen
    simp [set_enabled, hen]

/-- Witness for C1: the service booted disabled has no running loop and
an empty published slot, and a publish attempt on it changes nothing. -/
theorem grabber_disabled_clears_witness :
    ((reachG false true []).running = false ∧
      (reachG false true []).latest_frame = none ∧
      (reachG false true []).latest_meta = []) ∧
    stepG (reachG false true []) (.publish [7] []) = reachG false true [] :=
  ⟨(grabber_disabled_clears false true []).1 rfl,
   (grabber_disabled_clears false true []).2.1 (reachG false true []) [7] [] rfl⟩

/-- Whether an event is a `_loop` publish. -/
def GEvent.isPublish : GEvent → Bool
  | .publish _ _ => true
  | _ => false

lemma stepG_keeps_latest_none (e : GEvent) (hnp : e.isPublish = false) :
    ∀ s : GrabberState, s.latest_frame = none → (stepG s e).latest_frame = none := by
  intro s hs
  cases e with
  | apiEnable flag ok =>
      by_cases hfe : flag = s.enabled
      · simpa [stepG, set_enabled, hfe] using hs
      · cases flag with
        | false => simp [stepG, set_enabled, hfe, stopG]
        | true =>
            by_cases hth : s.thread <;> by_cases hok : ok <;>
              simp [stepG, set_enabled, hfe, startG, hth, hok, hs]
  | apiReopen ok =>
      by_cases hen : s.enabled
      · by_cases hok : ok <;> simp [stepG, hen, startG, stopG, hok]
      · simpa [stepG, hen] using hs
  | publish data meta => simp [GEvent.isPublish] at hnp
  | loopFail => by_cases hrun : s.running <;> simp [stepG, hrun, hs]

lemma foldl_stepG_keeps_latest_none (es : List GEvent)
    (hnp : ∀ e ∈ es, e.isPublish = false) :
    ∀ s : GrabberState, s.latest_frame = none →
      (es.foldl stepG s).latest_frame = none := by
  induction es with
  | nil => intro s hs; exact hs
  | cons e es ih =>
      intro s hs
      exact ih (fun e' he' => hnp e' (List.mem_cons_of_mem e he'))
        (stepG s e) (stepG_keeps_latest_none e (hnp e (List.mem_cons_self e es)) s hs)

/-- C2: `stop()` is idempotent, releases the driver, and sets the
published payload to `None` and the metadata to the empty map; and any
sequence of further events containing no publish (so before the
restarted loop's next publish) leaves `get_latest_jpeg` with no
payload — no frame captured before the restart is ever returned. -/
theorem stop_idempotent_no_stale (s : GrabberState) (es : List GEvent)
    (hnp : ∀ e ∈ es, e.isPublish = false) :
    stopG (stopG s) = stopG s ∧
    (stopG s).driverOpen = false ∧
    (stopG s).latest_frame = none ∧
    (stopG s).latest_meta = [] ∧
    get_latest_jpeg (es.foldl stepG (stopG s)) = none := by
  refine ⟨rfl, rfl, rfl, rfl, ?_⟩
  exact foldl_stepG_keeps_latest_none es hnp (stopG s) rfl

/-- Witness for C2: stop a grabber that had published a frame, then
re-enable it; before any new publish the latest payload is still
absent. -/
theorem stop_idempotent_no_stale_witness :
    get_latest_jpeg
      ([GEvent.apiEnable true true].foldl stepG
        (stopG (stepG (reachG false true [.apiEnable true true]) (.publish [9] [])))) =
      none :=
  (stop_idempotent_no_stale
    (stepG (reachG false true [.apiEnable true true]) (.publish [9] []))
    [GEvent.apiEnable true true] (by decide)).2.2.2.2

/-- C10: `set_enabled(True)` flips `enabled` before calling `start()`;
when `_open_driver()` raises, the exception propagates (first
component `true`) and the grabber is left with `enabled = true`,
`running = false`, and no background thread — the flag flip is not
rolled back. -/
theorem set_enabled_true_no_rollback (s : GrabberState)
    (hen : s.enabled = false) (hth : s.thread = false) (hrun : s.running = false) :
    set_enabled false true s =
      (true, { s with enabled := true, stop_evt := false, driverOpen := false }) ∧
    (set_enabled false true s).2.enabled = true ∧
    (set_enabled false true s).2.running = false ∧
    (set_enabled false true s).2.thread = false := by
  have h : set_enabled false true s =
      (true, { s with enabled := true, stop_evt := false, driverOpen := false }) := by
    simp [set_enabled, hen, startG, hth]
  exact ⟨h, by rw [h], by rw [h]; exact hrun, by rw [h]; exact hth⟩

/-- Witness for C10: enabling a fresh disabled grabber with a failing
device open leaves `enabled = true` with no loop. -/
theorem set_enabled_true_no_rollback_witness :
    (set_enabled false true (initGrabber false)).2.enabled = true ∧
    (set_enabled false true (initGrabber false)).2.running = false ∧
    (set_enabled false true (initGrabber false)).2.thread = false :=
  (set_enabled_true_no_rollback (initGrabber false) rfl rfl rfl).2

/-! ## HTTP handler claim theorems -/

/-- C4: `PUT /camera/enable` answers 400 when the body has no
`enabled` field; `set_enabled` raises exactly when it is asked to turn
on a grabber that is off with no live thread and the device open
fails, in which case the handler answers 500 (the start failure is
surfaced, not swallowed); otherwise it reports the grabber's resulting
`enabled` value. -/
theorem camera_enable_responses :
    (∀ (ok : Bool) (s : GrabberState), camera_enable none ok s = (.httpError 400, s)) ∧
    (∀ (ok flag : Bool) (s : GrabberState),
      (set_enabled ok flag s).1 = (flag && !s.enabled && !s.thread && !ok)) ∧
    (∀ (ok flag : Bool) (s : GrabberState), (set_enabled ok flag s).1 = true →
      camera_enable (some flag) ok s = (.httpError 500, (set_enabled ok flag s).2)) ∧
    (∀ (ok flag : Bool) (s : GrabberState), (set_enabled ok flag s).1 = false →
      camera_enable (some flag) ok s =
        (.jsonEnabled (set_enabled ok flag s).2.enabled, (set_enabled ok flag s).2)) := by
  refine ⟨fun _ _ => rfl, ?_, ?_, ?_⟩
  · intro ok flag s
    cases flag <;> cases hen : s.enabled <;> cases hth : s.thread <;> cases ok <;>
      simp [set_enabled, startG, stopG, hen, hth]
  · intro ok flag s hraise
    simp [camera_enable, hraise]
  · intro ok flag s hraise
    simp [camera_enable, hraise]

/-- Witness for C4: a missing field gives 400 on a fresh grabber;
enabling it with a failing device open gives 500; disabling an enabled
grabber reports `enabled = false`. -/
theorem camera_enable_responses_witness :
    camera_enable none true (initGrabber false) = (.httpError 400, initGrabber false) ∧
    camera_enable (some true) false (initGrabber false) =
      (.httpError 500, (set_enabled false true (initGrabber false)).2) ∧
    camera_enable (some false) true (initGrabber true) =
      (.jsonEnabled false, (set_enabled true false (initGrabber true)).2) :=
  ⟨camera_enable_responses.1 true (initGrabber false),
   camera_enable_responses.2.2.1 false true (initGrabber false) (by decide),
   camera_enable_responses.2.2.2 true false (initGrabber true) (by decide)⟩

/-- Counterexample to C3 as stated: the reachable state that enabled
the camera and then published an empty payload. A frame HAS been
published (`latest_frame = some []`), yet `camera_frame` answers 404
instead of returning the published payload bytes, because the
handler's `if not data` test uses Python truthiness, which is also
true for the empty byte string. -/
theorem camera_frame_truthiness_counterexample :
    (reachG false true [.apiEnable true true, .publish [] []]).enabled = true ∧
    (reachG false true [.apiEnable true true, .publish [] []]).latest_frame = some [] ∧
    camera_frame (reachG false true [.apiEnable true true, .publish [] []]) =
      .httpError 404 ∧
    camera_frame (reachG false true [.apiEnable true true, .publish [] []]) ≠
      .bytesResp [] "image/jpeg" := by
  refine ⟨rfl, rfl, rfl, ?_⟩
  intro h
  cases h

/-- C3 amended: `GET /camera/frame` answers 409 when disabled; when
enabled it answers 404 when no payload has been published or the
published payload is the empty byte string; and for any published
non-empty payload it returns exactly those bytes with content type
`image/jpeg`. -/
theorem camera_frame_responses (s : GrabberState) :
    (s.enabled = false → camera_frame s = .httpError 409) ∧
    (s.enabled = true → s.latest_frame = none → camera_frame s = .httpError 404) ∧
    (s.enabled = true → s.latest_frame = some [] → camera_frame s = .httpError 404) ∧
    (∀ data : List Nat, s.enabled = true → s.latest_frame = some data → data ≠ [] →
      camera_frame s = .bytesResp data "image/jpeg") := by
  refine ⟨?_, ?_, ?_, ?_⟩
  · intro hen
    simp [camera_frame, hen]
  · intro hen hlf
    simp [camera_frame, hen, get_latest_jpeg, hlf, pyFalsyBytes]
  · intro hen hlf
    simp [camera_frame, hen, get_latest_jpeg, hlf, pyFalsyBytes]
  · intro data hen hlf hdata
    simp [camera_frame, hen, get_latest_jpeg, hlf, pyFalsyBytes,
          List.isEmpty_iff, hdata]

/-- Witness for C3 (amended): a disabled grabber answers 409; an
enabled grabber with the published payload `[1, 2]` returns exactly
those bytes as `image/jpeg`. -/
theorem camera_frame_responses_witness :
    camera_frame (initGrabber false) = .httpError 409 ∧
    camera_frame (stepG (reachG false true [.apiEnable true true]) (.publish [1, 2] [])) =
      .bytesResp [1, 2] "image/jpeg" :=
  ⟨(camera_frame_responses (initGrabber false)).1 rfl,
   (camera_frame_responses
      (stepG (reachG false true [.apiEnable true true]) (.publish [1, 2] []))).2.2.2
      [1, 2] rfl rfl (by decide)⟩

lemma String_data_append (s t : String) : (s ++ t).data = s.data ++ t.data := rfl

lemma encodeUtf8_append (s t : String) :
    encodeUtf8 (s ++ t) = encodeUtf8 s ++ encodeUtf8 t := by
  simp [encodeUtf8, String_data_append]

/-- C8: every chunk the `camera_stream` generator yields for a payload
of `n` bytes is exactly the spec's template
`--<boundary>\r\nContent-Type: <type>\r\nContent-Length: <n>\r\n\r\n<bytes>\r\n`
instantiated with boundary `frame`, content type `image/jpeg`, and `n`
the payload's length. -/
theorem stream_chunk_matches_spec (frame : List Nat) :
    stream_chunk frame = spec_chunk "frame" "image/jpeg" frame := by
  have hmid : ∀ X : List Nat,
      encodeUtf8 "\r\n" ++ (encodeUtf8 "Content-Type: image/jpeg\r\n" ++
        (encodeUtf8 "Content-Length: " ++ X)) =
      encodeUtf8 "\r\nContent-Type: " ++ (encodeUtf8 "image/jpeg" ++
        (encodeUtf8 "\r\nContent-Length: " ++ X)) := by
    intro X
    have h : encodeUtf8 "\r\n" ++ encodeUtf8 "Content-Type: image/jpeg\r\n" ++
        encodeUtf8 "Content-Length: " =
        encodeUtf8 "\r\nContent-Type: " ++ encodeUtf8 "image/jpeg" ++
        encodeUtf8 "\r\nContent-Length: " := by decide
    calc encodeUtf8 "\r\n" ++ (encodeUtf8 "Content-Type: image/jpeg\r\n" ++
          (encodeUtf8 "Content-Length: " ++ X))
        = (encodeUtf8 "\r\n" ++ encodeUtf8 "Content-Type: image/jpeg\r\n" ++
            encodeUtf8 "Content-Length: ") ++ X := by simp [List.append_assoc]
      _ = (encodeUtf8 "\r\nContent-Type: " ++ encodeUtf8 "image/jpeg" ++
            encodeUtf8 "\r\nContent-Length: ") ++ X := by rw [h]
      _ = _ := by simp [List.append_assoc]
  simp only [stream_chunk, spec_chunk, stream_boundary, encodeUtf8_append,
             List.append_assoc]
  rw [hmid]

end MT3900
